import Mathlib

/-!
Verification of the cost-controlled, cached query execution layer of the
qaa-analysis repository.

The development shallowly embeds two source modules:

* `src/qaa_analysis/cache/query_cache.py` — `QueryCache._generate_cache_key`,
  `QueryCache._is_cache_valid` and `QueryCache.get_or_compute`;
* `src/qaa_analysis/etl/cost_aware_client.py` —
  `CostAwareBigQueryClient.estimate_query_cost` and
  `CostAwareBigQueryClient.safe_query`.

Modelling conventions:

* Python integers are `Nat`; Python float arithmetic on costs is modelled with
  exact rationals `ℚ` (the cost formula of the source is a single division and
  a single multiplication by the constant price);
* timestamps (`time.time()`, `st_mtime`) are rationals measured in seconds,
  TTLs in hours, exactly as the source divides ages by 3600;
* the filesystem cache directory is an association list from filename to file;
  a file's payload is either a valid serialized table or unreadable garbage;
* external effects (the compute callable, the parquet write, the BigQuery
  dry-run and execute calls) are passed in as explicit outcome values, and the
  embedding counts how often the billed/compute collaborator is invoked;
* `hashlib.sha256` is embedded in full (FIPS 180-4 over byte lists, words as
  `Nat` reduced mod `2 ^ 32`), with `hexdigest` producing the usual 64
  lowercase hex characters.
-/

deriving instance DecidableEq for Except

namespace QaaAnalysis

/-! ### hashlib.sha256: the digest used by `QueryCache._generate_cache_key` -/

namespace Hashlib

def w32 : Nat := 4294967296

def add32 (a b : Nat) : Nat := (a + b) % w32

def rotr32 (x n : Nat) : Nat := ((x >>> n) ||| (x <<< (32 - n))) % w32

def bsig0 (x : Nat) : Nat := rotr32 x 2 ^^^ rotr32 x 13 ^^^ rotr32 x 22

def bsig1 (x : Nat) : Nat := rotr32 x 6 ^^^ rotr32 x 11 ^^^ rotr32 x 25

def ssig0 (x : Nat) : Nat := rotr32 x 7 ^^^ rotr32 x 18 ^^^ (x >>> 3)

def ssig1 (x : Nat) : Nat := rotr32 x 17 ^^^ rotr32 x 19 ^^^ (x >>> 10)

def chf (x y z : Nat) : Nat := (x &&& y) ^^^ ((x ^^^ (w32 - 1)) &&& z)

def majf (x y z : Nat) : Nat := (x &&& y) ^^^ (x &&& z) ^^^ (y &&& z)

def roundK : List Nat :=
  [1116352408, 1899447441, 3049323471, 3921009573, 961987163, 1508970993,
   2453635748, 2870763221, 3624381080, 310598401, 607225278, 1426881987,
   1925078388, 2162078206, 2614888103, 3248222580, 3835390401, 4022224774,
   264347078, 604807628, 770255983, 1249150122, 1555081692, 1996064986,
   2554220882, 2821834349, 2952996808, 3210313671, 3336571891, 3584528711,
   113926993, 338241895, 666307205, 773529912, 1294757372, 1396182291,
   1695183700, 1986661051, 2177026350, 2456956037, 2730485921, 2820302411,
   3259730800, 3345764771, 3516065817, 3600352804, 4094571909, 275423344,
   430227734, 506948616, 659060556, 883997877, 958139571, 1322822218,
   1537002063, 1747873779, 1955562222, 2024104815, 2227730452, 2361852424,
   2428436474, 2756734187, 3204031479, 3329325298]

structure Hash8 where
  a : Nat
  b : Nat
  c : Nat
  d : Nat
  e : Nat
  f : Nat
  g : Nat
  h : Nat
deriving DecidableEq, Repr

def initH : Hash8 :=
  ⟨1779033703, 3144134277, 1013904242, 2773480762,
   1359893119, 2600822924, 528734635, 1541459225⟩

/-- Big-endian rendering of `x` into `n` bytes. -/
def beBytes (n x : Nat) : List Nat :=
  (List.range n).map (fun i => (x >>> (8 * (n - 1 - i))) % 256)

/-- SHA-256 padding: append `0x80`, zero bytes, and the 8-byte bit length. -/
def padded (msg : List Nat) : List Nat :=
  let len := msg.length
  let r := (len + 1) % 64
  let z := if r ≤ 56 then 56 - r else 120 - r
  msg ++ 128 :: (List.replicate z 0 ++ beBytes 8 (8 * len))

def chunks64 : List Nat → List (List Nat)
  | [] => []
  | x :: xs => ((x :: xs).take 64) :: chunks64 ((x :: xs).drop 64)
termination_by l => l.length
decreasing_by
  simp only [List.length_drop, List.length_cons]
  omega

/-- The 16 initial 32-bit message-schedule words of a 64-byte block. -/
def wordsOfBlock (block : List Nat) : Array Nat :=
  ((List.range 16).map (fun i =>
    block.getD (4 * i) 0 * 16777216 + block.getD (4 * i + 1) 0 * 65536 +
      block.getD (4 * i + 2) 0 * 256 + block.getD (4 * i + 3) 0)).toArray

/-- Extend the 16 schedule words to 64. -/
def extendWords (ws : Array Nat) : Array Nat :=
  (List.range 48).foldl (fun a j =>
    a.push (add32 (add32 (a.getD j 0) (ssig0 (a.getD (j + 1) 0)))
      (add32 (a.getD (j + 9) 0) (ssig1 (a.getD (j + 14) 0))))) ws

def sha256Round (st : Hash8) (kw : Nat × Nat) : Hash8 :=
  let t1 := add32 st.h (add32 (bsig1 st.e) (add32 (chf st.e st.f st.g) (add32 kw.1 kw.2)))
  let t2 := add32 (bsig0 st.a) (majf st.a st.b st.c)
  ⟨add32 t1 t2, st.a, st.b, st.c, add32 st.d t1, st.e, st.f, st.g⟩

def compress (st : Hash8) (block : List Nat) : Hash8 :=
  let ws := extendWords (wordsOfBlock block)
  let fin := (roundK.zip ws.toList).foldl sha256Round st
  ⟨add32 st.a fin.a, add32 st.b fin.b, add32 st.c fin.c, add32 st.d fin.d,
   add32 st.e fin.e, add32 st.f fin.f, add32 st.g fin.g, add32 st.h fin.h⟩

def sha256 (msg : List Nat) : Hash8 :=
  (chunks64 (padded msg)).foldl compress initH

def hexDigitChar (d : Nat) : Char :=
  "0123456789abcdef".data.getD d (Char.ofNat 48)

/-- Exactly `n` lowercase hex characters for the word `x`, most significant first. -/
def toHexFixed (x n : Nat) : List Char :=
  (List.range n).map (fun i => hexDigitChar ((x >>> (4 * (n - 1 - i))) % 16))

def hexChars (hs : Hash8) : List Char :=
  toHexFixed hs.a 8 ++ toHexFixed hs.b 8 ++ toHexFixed hs.c 8 ++ toHexFixed hs.d 8 ++
    toHexFixed hs.e 8 ++ toHexFixed hs.f 8 ++ toHexFixed hs.g 8 ++ toHexFixed hs.h 8

/-- `hashlib.sha256(msg).hexdigest()` over a list of byte values. -/
def sha256_hexdigest (msg : List Nat) : String :=
  String.mk (hexChars (sha256 msg))

end Hashlib

/-! ### QueryCache._generate_cache_key

The source concatenates the stripped query text with, for a non-empty
parameter dict, the Python `str` of `sorted(params.items())`, hashes the
UTF-8 bytes with SHA-256 and keeps the first 16 hex characters.  Parameter
values are modelled as strings; `sorted` on pairs of strings is the
lexicographic order on (name, value).
-/

def utf8Bytes (s : String) : List Nat :=
  s.toUTF8.toList.map (fun b => b.toNat)

def squote : String := String.singleton (Char.ofNat 39)

/-- Python `str` of a 2-tuple of (plain, escape-free) strings. -/
def pyStrOfPair (p : String × String) : String :=
  "(" ++ squote ++ p.1 ++ squote ++ ", " ++ squote ++ p.2 ++ squote ++ ")"

/-- Python `str` of a list of 2-tuples of strings. -/
def pyStrOfPairs (l : List (String × String)) : String :=
  "[" ++ String.intercalate ", " (l.map pyStrOfPair) ++ "]"

/-- Python tuple comparison for `sorted(params.items())`. -/
def pairLe (p q : String × String) : Bool :=
  if p.1 = q.1 then decide (p.2 ≤ q.2) else decide (p.1 < q.1)

def sortedParams (params : List (String × String)) : List (String × String) :=
  params.mergeSort pairLe

/-- `QueryCache._generate_cache_key` (leading underscore dropped). -/
def generate_cache_key (query : String) (params : List (String × String)) : String :=
  let cache_input := query.trim
  let cache_input :=
    if params.isEmpty then cache_input
    else cache_input ++ "__PARAMS__" ++ pyStrOfPairs (sortedParams params)
  String.mk ((Hashlib.sha256_hexdigest (utf8Bytes cache_input)).data.take 16)

/-- The cache filename the source derives from a key. -/
def cacheFilename (query : String) (params : List (String × String)) : String :=
  "query_" ++ generate_cache_key query params ++ ".parquet"

/-! ### The cache store and `QueryCache._is_cache_valid` -/

/-- A tabular result (`pandas.DataFrame`): a list of rows. `df.empty` is
modelled as the row list being empty. -/
structure DataFrame where
  rows : List (List String)
deriving DecidableEq, Repr

/-- The on-disk payload of a cache file: a valid serialized table, or
unreadable/corrupted bytes on which `pd.read_parquet` raises. -/
inductive FileContent where
  | parquet (df : DataFrame)
  | garbage
deriving DecidableEq, Repr

structure CacheFile where
  mtime : ℚ
  content : FileContent
deriving DecidableEq, Repr

/-- The cache directory: filenames mapped to files. -/
abbrev Store := List (String × CacheFile)

def findFile : Store → String → Option CacheFile
  | [], _ => none
  | (n, f) :: rest, name => if n = name then some f else findFile rest name

def setFile : Store → String → CacheFile → Store
  | [], name, f => [(name, f)]
  | (n, g) :: rest, name, f =>
      if n = name then (n, f) :: rest else (n, g) :: setFile rest name f

/-- `QueryCache._is_cache_valid`: the file exists and
`(now - mod_time) / 3600 < ttl_hours` (times in seconds, TTL in hours). -/
def is_cache_valid (ttl_hours : ℚ) (file : Option CacheFile) (now : ℚ) : Bool :=
  match file with
  | Option.none => false
  | some f => decide ((now - f.mtime) / 3600 < ttl_hours)

/-! ### `QueryCache.get_or_compute` -/

/-- The value a Python compute callable may return. -/
inductive PyValue where
  | none
  | dataFrame (df : DataFrame)
  | other (typeName : String)
deriving DecidableEq, Repr

/-- The observable behaviour of one invocation of `compute_fn`. -/
inductive ComputeOutcome where
  | returns (v : PyValue)
  | raises (msg : String)
deriving DecidableEq, Repr

/-- The environment outcome of `DataFrame.to_parquet` on the cache path:
it succeeds, or raises before touching the file, or raises mid-write
leaving partial (unreadable) bytes at the path. -/
inductive WriteOutcome where
  | success
  | failClean
  | failDirty
deriving DecidableEq, Repr

/-- Exceptions `get_or_compute` can surface to its caller. -/
inductive PyError where
  | typeError (msg : String)
  | computeFailure (msg : String)
deriving DecidableEq, Repr

/-- Result of one `get_or_compute` call: the returned value or raised
exception, the cache directory afterwards, and how often `compute_fn`
was invoked. -/
structure GocOutcome where
  result : Except PyError DataFrame
  store : Store
  computeCalls : Nat
deriving DecidableEq, Repr

/-- The compute-and-cache tail of `get_or_compute` (the body of its
`try` block after a cache miss, forced refresh, or failed cache read). -/
def computeAndCache (store : Store) (fname : String) (now : ℚ)
    (compute : ComputeOutcome) (wout : WriteOutcome) : GocOutcome :=
  match compute with
  | .raises msg => ⟨.error (.computeFailure msg), store, 1⟩
  | .returns .none => ⟨.ok ⟨[]⟩, store, 1⟩
  | .returns (.other t) =>
      ⟨.error (.typeError ("Compute function must return a pandas DataFrame, got " ++ t)),
        store, 1⟩
  | .returns (.dataFrame df) =>
      if df.rows.isEmpty then ⟨.ok df, store, 1⟩
      else
        match wout with
        | .success => ⟨.ok df, setFile store fname ⟨now, .parquet df⟩, 1⟩
        | .failClean => ⟨.ok df, store, 1⟩
        | .failDirty => ⟨.ok df, setFile store fname ⟨now, .garbage⟩, 1⟩

/-- `QueryCache.get_or_compute`. -/
def get_or_compute (ttl_hours : ℚ) (store : Store) (now : ℚ)
    (query : String) (params : List (String × String))
    (compute : ComputeOutcome) (wout : WriteOutcome)
    (force_refresh : Bool) : GocOutcome :=
  let fname := cacheFilename query params
  let file := findFile store fname
  if !force_refresh && is_cache_valid ttl_hours file now then
    match file with
    | some ⟨_, .parquet df⟩ => ⟨.ok df, store, 0⟩
    | _ => computeAndCache store fname now compute wout
  else
    computeAndCache store fname now compute wout

/-! ### CostAwareBigQueryClient -/

def COST_PER_TIB_USD : ℚ := 6.25

def BYTES_PER_TIB : Nat := 1024 ^ 4

/-- The cost formula of `estimate_query_cost`:
`(bytes_estimate / BYTES_PER_TIB) * COST_PER_TIB_USD`. -/
def costOfBytes (b : Nat) : ℚ :=
  ((b : ℚ) / (BYTES_PER_TIB : ℚ)) * COST_PER_TIB_USD

/-- What the remote dry run reports: `total_bytes_processed` (possibly the
Python `None`, treated as 0), or a `GoogleCloudError`. -/
inductive DryRunOutcome where
  | reports (bytesProcessed : Option Nat)
  | fails (msg : String)
deriving DecidableEq, Repr

/-- What the billed execute call would do if made. -/
inductive ExecOutcome where
  | returns (df : DataFrame) (bytesBilled : Option Nat)
  | fails (msg : String)
deriving DecidableEq, Repr

/-- The `QueryCostError` refusal, carrying the fields the source interpolates
into the message: estimate, limit, and currency figure. -/
structure QueryCostError where
  bytes_estimate : Nat
  limit : Nat
  cost_estimate : ℚ
deriving DecidableEq, Repr

inductive BQError where
  | costExceeded (e : QueryCostError)
  | cloudError (msg : String)
deriving DecidableEq, Repr

/-- `CostAwareBigQueryClient.estimate_query_cost`. -/
def estimate_query_cost (dry : DryRunOutcome) : Except BQError (Nat × ℚ) :=
  match dry with
  | .fails msg => .error (.cloudError msg)
  | .reports bp =>
      let bytes_estimate := bp.getD 0
      .ok (bytes_estimate, costOfBytes bytes_estimate)

/-- Result of one `safe_query` call, counting billed execute calls. -/
structure SafeQueryResult where
  result : Except BQError DataFrame
  executeCalls : Nat
deriving DecidableEq, Repr

/-- `CostAwareBigQueryClient.safe_query`. -/
def safe_query (maxBytesBilled : Nat) (dry : DryRunOutcome) (ex : ExecOutcome) :
    SafeQueryResult :=
  match estimate_query_cost dry with
  | .error e => ⟨.error e, 0⟩
  | .ok (bytes_estimate, cost_estimate) =>
      if bytes_estimate > maxBytesBilled then
        ⟨.error (.costExceeded ⟨bytes_estimate, maxBytesBilled, cost_estimate⟩), 0⟩
      else
        match ex with
        | .returns df _ => ⟨.ok df, 1⟩
        | .fails msg => ⟨.error (.cloudError msg), 1⟩

/-! ### Helper predicates used in theorem statements -/

def isCostRefusal : Except BQError DataFrame → Bool
  | .error (.costExceeded _) => true
  | _ => false

def isTypeError : Except PyError DataFrame → Bool
  | .error (.typeError _) => true
  | _ => false

def isTabularValue : PyValue → Bool
  | .dataFrame _ => true
  | _ => false

def contentValid : FileContent → Bool
  | .parquet _ => true
  | .garbage => false

/-- The atomicity property claimed of cache writes: after a call, every entry
of the store is either an entry that was already present or a valid
serialized table (never partially written bytes). -/
def writeAtomicOn (store : Store) (out : GocOutcome) : Prop :=
  ∀ e ∈ out.store, e ∈ store ∨ contentValid e.2.content = true

def isHexChar (c : Char) : Bool :=
  "0123456789abcdef".data.contains c

/-! ### Helper lemmas -/

theorem pairLe_total (a b : String × String) : pairLe a b || pairLe b a := by
  unfold pairLe
  by_cases h : a.1 = b.1
  · simp [h, le_total]
  · have h' : ¬ b.1 = a.1 := fun hba => h hba.symm
    simp only [if_neg h, if_neg h', Bool.or_eq_true, decide_eq_true_eq]
    exact lt_or_gt_of_ne h

theorem pairLe_trans (a b c : String × String) :
    pairLe a b → pairLe b c → pairLe a c := by
  unfold pairLe
  by_cases h1 : a.1 = b.1 <;> by_cases h2 : b.1 = c.1
  · simp only [if_pos h1, if_pos h2, if_pos (h1.trans h2), decide_eq_true_eq]
    exact le_trans
  · have : ¬ a.1 = c.1 := fun hac => h2 (h1.symm.trans hac)
    simp only [if_pos h1, if_neg h2, if_neg this, decide_eq_true_eq]
    intro _ hlt
    exact h1 ▸ hlt
  · have : ¬ a.1 = c.1 := fun hac => h1 (hac.trans h2.symm)
    simp only [if_neg h1, if_pos h2, if_neg this, decide_eq_true_eq]
    intro hlt _
    exact h2 ▸ hlt
  · simp only [if_neg h1, if_neg h2, decide_eq_true_eq]
    intro hab hbc
    have hac := lt_trans hab hbc
    have : ¬ a.1 = c.1 := fun h => absurd (h ▸ hac) (lt_irrefl _)
    simp only [if_neg this, decide_eq_true_eq]
    exact hac

theorem pairLe_antisymm (a b : String × String) :
    pairLe a b = true → pairLe b a = true → a = b := by
  unfold pairLe
  by_cases h : a.1 = b.1
  · have h' : b.1 = a.1 := h.symm
    simp only [if_pos h, if_pos h', decide_eq_true_eq]
    intro hab hba
    exact Prod.ext h (le_antisymm hab hba)
  · have h' : ¬ b.1 = a.1 := fun hba => h hba.symm
    simp only [if_neg h, if_neg h', decide_eq_true_eq]
    intro hab hba
    exact absurd hba (lt_asymm hab)

theorem sortedParams_eq_of_perm {p1 p2 : List (String × String)} (h : p1.Perm p2) :
    sortedParams p1 = sortedParams p2 := by
  haveI : IsAntisymm (String × String) (fun a b => pairLe a b = true) := ⟨pairLe_antisymm⟩
  apply List.eq_of_perm_of_sorted (r := fun a b => pairLe a b = true)
  · exact ((List.mergeSort_perm p1 pairLe).trans h).trans (List.mergeSort_perm p2 pairLe).symm
  · exact List.sorted_mergeSort (fun a b c => pairLe_trans a b c) pairLe_total p1
  · exact List.sorted_mergeSort (fun a b c => pairLe_trans a b c) pairLe_total p2

theorem isEmpty_eq_of_perm {p1 p2 : List (String × String)} (h : p1.Perm p2) :
    p1.isEmpty = p2.isEmpty := by
  have := h.length_eq
  cases p1 <;> cases p2 <;> simp_all

theorem generate_cache_key_perm (q : String) {p1 p2 : List (String × String)}
    (h : p1.Perm p2) : generate_cache_key q p1 = generate_cache_key q p2 := by
  unfold generate_cache_key
  rw [sortedParams_eq_of_perm h, isEmpty_eq_of_perm h]

theorem digest_data (m : List Nat) :
    (Hashlib.sha256_hexdigest m).data = Hashlib.hexChars (Hashlib.sha256 m) := rfl

theorem hexChars_length (hs : Hashlib.Hash8) : (Hashlib.hexChars hs).length = 64 := by
  simp [Hashlib.hexChars, Hashlib.toHexFixed]

theorem generate_cache_key_length (q : String) (p : List (String × String)) :
    (generate_cache_key q p).length = 16 := by
  unfold generate_cache_key
  show ((Hashlib.sha256_hexdigest _).data.take 16).length = 16
  rw [List.length_take, digest_data, hexChars_length]
  decide

theorem isHexChar_hexDigitChar (d : Nat) : isHexChar (Hashlib.hexDigitChar d) = true := by
  rcases Nat.lt_or_ge d 16 with h | h
  · interval_cases d <;> decide
  · have hd : Hashlib.hexDigitChar d = Char.ofNat 48 := by
      unfold Hashlib.hexDigitChar
      apply List.getD_eq_default
      calc "0123456789abcdef".data.length = 16 := by decide
        _ ≤ d := h
    rw [hd]
    decide

theorem mem_toHexFixed_isHex {c : Char} {x n : Nat}
    (h : c ∈ Hashlib.toHexFixed x n) : isHexChar c = true := by
  simp only [Hashlib.toHexFixed, List.mem_map] at h
  obtain ⟨i, -, rfl⟩ := h
  exact isHexChar_hexDigitChar _

theorem mem_hexChars_isHex {c : Char} {hs : Hashlib.Hash8}
    (h : c ∈ Hashlib.hexChars hs) : isHexChar c = true := by
  simp only [Hashlib.hexChars, List.mem_append] at h
  rcases h with ((((((h | h) | h) | h) | h) | h) | h) | h <;> exact mem_toHexFixed_isHex h

theorem generate_cache_key_hex (q : String) (p : List (String × String)) :
    (generate_cache_key q p).data.all isHexChar = true := by
  rw [List.all_eq_true]
  intro c hc
  have hc' : c ∈ (Hashlib.sha256_hexdigest _).data.take 16 := hc
  exact mem_hexChars_isHex (digest_data _ ▸ List.mem_of_mem_take hc')

theorem findFile_setFile_self (s : Store) (n : String) (f : CacheFile) :
    findFile (setFile s n f) n = some f := by
  induction s with
  | nil => simp [setFile, findFile]
  | cons hd tl ih =>
      obtain ⟨m, g⟩ := hd
      by_cases h : m = n
      · simp [setFile, findFile, h]
      · simp [setFile, findFile, h, ih]

/-- On a cache miss (no file for the key), `get_or_compute` runs its
compute-and-cache tail. -/
theorem goc_of_miss (ttl now : ℚ) (store : Store) (q : String)
    (p : List (String × String)) (compute : ComputeOutcome) (wout : WriteOutcome)
    (hmiss : findFile store (cacheFilename q p) = none) :
    get_or_compute ttl store now q p compute wout false =
      computeAndCache store (cacheFilename q p) now compute wout := by
  simp [get_or_compute, hmiss, is_cache_valid]

/-- With `force_refresh`, `get_or_compute` always runs its compute-and-cache
tail. -/
theorem goc_of_force (ttl now : ℚ) (store : Store) (q : String)
    (p : List (String × String)) (compute : ComputeOutcome) (wout : WriteOutcome) :
    get_or_compute ttl store now q p compute wout true =
      computeAndCache store (cacheFilename q p) now compute wout := by
  simp [get_or_compute]

/-- On a fresh but unreadable (garbage) cache file, `get_or_compute` falls
through to its compute-and-cache tail. -/
theorem goc_of_garbage (ttl now mt : ℚ) (store : Store) (q : String)
    (p : List (String × String)) (compute : ComputeOutcome) (wout : WriteOutcome)
    (hfile : findFile store (cacheFilename q p) = some ⟨mt, .garbage⟩) :
    get_or_compute ttl store now q p compute wout false =
      computeAndCache store (cacheFilename q p) now compute wout := by
  by_cases hfresh : (now - mt) / 3600 < ttl
  · simp [get_or_compute, hfile, is_cache_valid, hfresh]
  · simp [get_or_compute, hfile, is_cache_valid, hfresh]

/-- The compute-and-cache tail always invokes `compute_fn` exactly once. -/
theorem computeAndCache_calls (store : Store) (fname : String) (now : ℚ)
    (compute : ComputeOutcome) (wout : WriteOutcome) :
    (computeAndCache store fname now compute wout).computeCalls = 1 := by
  cases compute with
  | raises m => rfl
  | returns v =>
      cases v with
      | none => rfl
      | other t => rfl
      | dataFrame df =>
          by_cases h : df.rows.isEmpty <;> cases wout <;> simp [computeAndCache, h]

/-- The compute-and-cache tail on a non-empty table. -/
theorem computeAndCache_nonempty (store : Store) (fname : String) (now : ℚ)
    (df : DataFrame) (wout : WriteOutcome) (hne : df.rows ≠ []) :
    computeAndCache store fname now (.returns (.dataFrame df)) wout =
      match wout with
      | .success => ⟨.ok df, setFile store fname ⟨now, .parquet df⟩, 1⟩
      | .failClean => ⟨.ok df, store, 1⟩
      | .failDirty => ⟨.ok df, setFile store fname ⟨now, .garbage⟩, 1⟩ := by
  have h : df.rows.isEmpty = false := by
    cases hr : df.rows with
    | nil => exact absurd hr hne
    | cons a l => rfl
  cases wout <;> simp [computeAndCache, h]

/-- Normal form of `safe_query` when the dry run reports `b` bytes. -/
theorem safe_query_reports (ceiling b : Nat) (ex : ExecOutcome) :
    safe_query ceiling (.reports (some b)) ex =
      if ceiling < b then ⟨.error (.costExceeded ⟨b, ceiling, costOfBytes b⟩), 0⟩
      else match ex with
        | .returns df _ => ⟨.ok df, 1⟩
        | .fails msg => ⟨.error (.cloudError msg), 1⟩ := rfl

/-! ### The claims -/

/-- C1: `safe_query` refuses iff the dry-run bytes estimate strictly exceeds
the configured ceiling; an estimate equal to the ceiling is allowed and the
billed execute call is made exactly once; any estimate above the ceiling —
in particular `ceiling + 1` — is refused with a `QueryCostError` carrying
the original estimate, the ceiling, and the derived currency figure, and
the billed execute call is never made. -/
theorem safe_query_ceiling_enforcement (ceiling b : Nat) (ex : ExecOutcome) :
    (isCostRefusal (safe_query ceiling (.reports (some b)) ex).result = true ↔ ceiling < b)
    ∧ (ceiling < b → safe_query ceiling (.reports (some b)) ex =
        ⟨.error (.costExceeded ⟨b, ceiling, costOfBytes b⟩), 0⟩)
    ∧ (b ≤ ceiling → isCostRefusal (safe_query ceiling (.reports (some b)) ex).result = false
        ∧ (safe_query ceiling (.reports (some b)) ex).executeCalls = 1) := by
  by_cases h : ceiling < b
  · have hq : safe_query ceiling (.reports (some b)) ex =
        ⟨.error (.costExceeded ⟨b, ceiling, costOfBytes b⟩), 0⟩ := by
      rw [safe_query_reports, if_pos h]
    refine ⟨?_, fun _ => hq, fun hb => absurd h (not_lt.mpr hb)⟩
    rw [hq]
    exact ⟨fun _ => h, fun _ => rfl⟩
  · have hq : safe_query ceiling (.reports (some b)) ex =
        match ex with
        | .returns df _ => ⟨.ok df, 1⟩
        | .fails msg => ⟨.error (.cloudError msg), 1⟩ := by
      rw [safe_query_reports, if_neg h]
    refine ⟨?_, fun hlt => absurd hlt h, fun _ => ?_⟩
    · rw [hq]
      cases ex with
      | returns df bb => exact ⟨fun hr => by simp [isCostRefusal] at hr,
          fun hlt => absurd hlt h⟩
      | fails m => exact ⟨fun hr => by simp [isCostRefusal] at hr,
          fun hlt => absurd hlt h⟩
    · rw [hq]
      cases ex <;> exact ⟨rfl, rfl⟩

theorem safe_query_ceiling_enforcement_witness :
    safe_query 10 (.reports (some 11)) (.returns ⟨[]⟩ Option.none) =
      ⟨.error (.costExceeded ⟨11, 10, costOfBytes 11⟩), 0⟩ :=
  (safe_query_ceiling_enforcement 10 11 (.returns ⟨[]⟩ Option.none)).2.1 (by decide)

/-- C5: the freshness check is true iff a file for the key exists and its
age in hours, `(now - mtime) / 3600`, is strictly less than `ttl_hours`;
a missing file is never fresh, and an existing entry is stale once its age
exceeds `ttl_hours`. -/
theorem is_cache_valid_iff (ttl now : ℚ) (file : Option CacheFile) :
    (is_cache_valid ttl file now = true ↔
      ∃ f, file = some f ∧ (now - f.mtime) / 3600 < ttl)
    ∧ is_cache_valid ttl Option.none now = false
    ∧ (∀ f, file = some f → ttl < (now - f.mtime) / 3600 →
        is_cache_valid ttl file now = false) := by
  refine ⟨?_, rfl, ?_⟩
  · cases file with
    | none => simp [is_cache_valid]
    | some f => simp [is_cache_valid]
  · rintro f rfl hstale
    have hnot : ¬ ((now - f.mtime) / 3600 < ttl) := not_lt.mpr hstale.le
    simp [is_cache_valid, hnot]

theorem is_cache_valid_iff_witness :
    is_cache_valid 1 (some ⟨0, .garbage⟩) 7200 = false :=
  (is_cache_valid_iff 1 7200 (some ⟨0, .garbage⟩)).2.2 ⟨0, .garbage⟩ rfl (by norm_num)

/-- C9: the monetary estimate is exactly
`bytes_estimate / BYTES_PER_TIB * COST_PER_TIB_USD`: 0 bytes cost exactly 0,
the cost is linear in the byte count (it equals the byte count times a fixed
per-byte price), and exactly one tebibyte (`2 ^ 40` bytes) costs exactly the
configured per-tebibyte price. -/
theorem cost_formula :
    costOfBytes 0 = 0
    ∧ (∀ b : Nat, costOfBytes b = (b : ℚ) * (COST_PER_TIB_USD / (BYTES_PER_TIB : ℚ)))
    ∧ costOfBytes (2 ^ 40) = COST_PER_TIB_USD
    ∧ (∀ b : Nat, estimate_query_cost (.reports (some b)) = .ok (b, costOfBytes b)) := by
  refine ⟨by simp [costOfBytes], fun b => by rw [costOfBytes]; ring, ?_, fun b => rfl⟩
  rw [costOfBytes]
  norm_num [BYTES_PER_TIB]

/-- C2: starting from a store without a file for the key, a first non-forced
`get_or_compute` whose compute function returns a non-empty table and whose
write succeeds invokes the compute function once, returns that table and
caches it; an immediately following non-forced call with the same query and
params (no TTL expiry in between) never invokes its compute function and
returns an equal result. -/
theorem get_or_compute_hit_once (ttl now1 now2 : ℚ) (store : Store) (q : String)
    (p : List (String × String)) (df : DataFrame)
    (compute2 : ComputeOutcome) (w2 : WriteOutcome)
    (hmiss : findFile store (cacheFilename q p) = none)
    (hne : df.rows ≠ [])
    (hfresh : (now2 - now1) / 3600 < ttl) :
    (get_or_compute ttl store now1 q p (.returns (.dataFrame df)) .success false).result
        = .ok df
    ∧ (get_or_compute ttl store now1 q p
        (.returns (.dataFrame df)) .success false).computeCalls = 1
    ∧ (get_or_compute ttl
        (get_or_compute ttl store now1 q p (.returns (.dataFrame df)) .success false).store
        now2 q p compute2 w2 false).result = .ok df
    ∧ (get_or_compute ttl
        (get_or_compute ttl store now1 q p (.returns (.dataFrame df)) .success false).store
        now2 q p compute2 w2 false).computeCalls = 0 := by
  have h1 : get_or_compute ttl store now1 q p (.returns (.dataFrame df)) .success false =
      ⟨.ok df, setFile store (cacheFilename q p) ⟨now1, .parquet df⟩, 1⟩ := by
    rw [goc_of_miss ttl now1 store q p _ _ hmiss, computeAndCache_nonempty _ _ _ _ _ hne]
  have h2 : get_or_compute ttl (setFile store (cacheFilename q p) ⟨now1, .parquet df⟩)
      now2 q p compute2 w2 false =
      ⟨.ok df, setFile store (cacheFilename q p) ⟨now1, .parquet df⟩, 0⟩ := by
    simp [get_or_compute, findFile_setFile_self, is_cache_valid, hfresh]
  rw [h1]
  exact ⟨rfl, rfl, by rw [h2], by rw [h2]⟩

theorem get_or_compute_hit_once_witness :
    (get_or_compute 24 [] 0 "SELECT 1" [] (.returns (.dataFrame ⟨[["1"]]⟩)) .success
        false).result = .ok ⟨[["1"]]⟩
    ∧ (get_or_compute 24 [] 0 "SELECT 1" []
        (.returns (.dataFrame ⟨[["1"]]⟩)) .success false).computeCalls = 1
    ∧ (get_or_compute 24
        (get_or_compute 24 [] 0 "SELECT 1" [] (.returns (.dataFrame ⟨[["1"]]⟩)) .success
          false).store
        1 "SELECT 1" [] (.raises "boom") .success false).result = .ok ⟨[["1"]]⟩
    ∧ (get_or_compute 24
        (get_or_compute 24 [] 0 "SELECT 1" [] (.returns (.dataFrame ⟨[["1"]]⟩)) .success
          false).store
        1 "SELECT 1" [] (.raises "boom") .success false).computeCalls = 0 :=
  get_or_compute_hit_once 24 0 1 [] "SELECT 1" [] ⟨[["1"]]⟩ (.raises "boom") .success
    rfl (by decide) (by norm_num)

/-- C4: when the file for the key is fresh but corrupted (unreadable), a
non-forced `get_or_compute` never surfaces the read failure: for every
compute outcome it behaves exactly like a cache miss (falls through to the
compute function), and when the compute function returns a non-empty table
and the write succeeds it returns that table and overwrites the corrupted
file with a valid entry. -/
theorem get_or_compute_self_heal (ttl now mt : ℚ) (store : Store) (q : String)
    (p : List (String × String)) (df : DataFrame)
    (hfile : findFile store (cacheFilename q p) = some ⟨mt, .garbage⟩)
    (_hfresh : (now - mt) / 3600 < ttl)
    (hne : df.rows ≠ []) :
    (∀ (compute : ComputeOutcome) (wout : WriteOutcome),
      get_or_compute ttl store now q p compute wout false =
        computeAndCache store (cacheFilename q p) now compute wout)
    ∧ get_or_compute ttl store now q p (.returns (.dataFrame df)) .success false =
        ⟨.ok df, setFile store (cacheFilename q p) ⟨now, .parquet df⟩, 1⟩ := by
  refine ⟨fun compute wout => goc_of_garbage ttl now mt store q p compute wout hfile, ?_⟩
  rw [goc_of_garbage ttl now mt store q p _ _ hfile, computeAndCache_nonempty _ _ _ _ _ hne]

theorem get_or_compute_self_heal_witness :
    (∀ (compute : ComputeOutcome) (wout : WriteOutcome),
      get_or_compute 24 [(cacheFilename "q" [], ⟨0, .garbage⟩)] 1 "q" [] compute wout false =
        computeAndCache [(cacheFilename "q" [], ⟨0, .garbage⟩)] (cacheFilename "q" []) 1
          compute wout)
    ∧ get_or_compute 24 [(cacheFilename "q" [], ⟨0, .garbage⟩)] 1 "q" []
        (.returns (.dataFrame ⟨[["1"]]⟩)) .success false =
      ⟨.ok ⟨[["1"]]⟩, setFile [(cacheFilename "q" [], ⟨0, .garbage⟩)] (cacheFilename "q" [])
        ⟨1, .parquet ⟨[["1"]]⟩⟩, 1⟩ :=
  get_or_compute_self_heal 24 1 0 [(cacheFilename "q" [], ⟨0, .garbage⟩)] "q" [] ⟨[["1"]]⟩
    (by simp [findFile]) (by norm_num) (by decide)

/-- C10: when the compute function returns Python `None`, a `get_or_compute`
that reaches it (here: no file for the key) does not raise: it returns an
empty table and writes nothing to the store. -/
theorem get_or_compute_none_empty (ttl now : ℚ) (store : Store) (q : String)
    (p : List (String × String)) (wout : WriteOutcome) (force : Bool)
    (hmiss : findFile store (cacheFilename q p) = none) :
    get_or_compute ttl store now q p (.returns .none) wout force =
      ⟨.ok ⟨[]⟩, store, 1⟩ := by
  cases force with
  | true => rw [goc_of_force]; rfl
  | false => rw [goc_of_miss ttl now store q p _ _ hmiss]; rfl

theorem get_or_compute_none_empty_witness :
    get_or_compute 24 [] 0 "q" [] (.returns .none) .success false =
      ⟨.ok ⟨[]⟩, [], 1⟩ :=
  get_or_compute_none_empty 24 0 [] "q" [] .success false rfl

/-- C6 counterexample: Python `None` is a non-tabular value (not a valid
tabular result), yet `get_or_compute` does not fail with a type error for
it — it returns an empty table. -/
theorem get_or_compute_none_no_type_error :
    isTabularValue PyValue.none = false
    ∧ (get_or_compute 24 [] 0 "q" [] (.returns .none) .success false).result = .ok ⟨[]⟩
    ∧ isTypeError
        (get_or_compute 24 [] 0 "q" [] (.returns .none) .success false).result = false :=
  ⟨rfl, rfl, rfl⟩

/-- C6 (amended): for every compute function that returns a non-tabular
value other than `None`, `get_or_compute` fails with a type error naming the
offending type, surfaced to the caller. -/
theorem get_or_compute_type_error (ttl now : ℚ) (store : Store) (q : String)
    (p : List (String × String)) (t : String) (wout : WriteOutcome) (force : Bool)
    (hmiss : findFile store (cacheFilename q p) = none) :
    get_or_compute ttl store now q p (.returns (.other t)) wout force =
      ⟨.error (.typeError ("Compute function must return a pandas DataFrame, got " ++ t)),
        store, 1⟩ := by
  cases force with
  | true => rw [goc_of_force]; rfl
  | false => rw [goc_of_miss ttl now store q p _ _ hmiss]; rfl

theorem get_or_compute_type_error_witness :
    get_or_compute 24 [] 0 "q" [] (.returns (.other "int")) .success false =
      ⟨.error (.typeError ("Compute function must return a pandas DataFrame, got " ++ "int")),
        [], 1⟩ :=
  get_or_compute_type_error 24 0 [] "q" [] "int" .success false rfl

/-- C7: when the compute function returns an empty-but-valid table,
`get_or_compute` returns it as-is and writes nothing, so the store is
unchanged and an immediately following call with the same key invokes the
compute function again. -/
theorem get_or_compute_empty_not_cached (ttl now1 now2 : ℚ) (store : Store)
    (q : String) (p : List (String × String)) (df : DataFrame)
    (w1 : WriteOutcome) (compute2 : ComputeOutcome) (w2 : WriteOutcome)
    (hmiss : findFile store (cacheFilename q p) = none)
    (hempty : df.rows = []) :
    get_or_compute ttl store now1 q p (.returns (.dataFrame df)) w1 false =
      ⟨.ok df, store, 1⟩
    ∧ (get_or_compute ttl
        (get_or_compute ttl store now1 q p (.returns (.dataFrame df)) w1 false).store
        now2 q p compute2 w2 false).computeCalls = 1 := by
  have h1 : get_or_compute ttl store now1 q p (.returns (.dataFrame df)) w1 false =
      ⟨.ok df, store, 1⟩ := by
    rw [goc_of_miss ttl now1 store q p _ _ hmiss]
    simp [computeAndCache, hempty]
  refine ⟨h1, ?_⟩
  rw [h1]
  show (get_or_compute ttl store now2 q p compute2 w2 false).computeCalls = 1
  rw [goc_of_miss ttl now2 store q p _ _ hmiss, computeAndCache_calls]

theorem get_or_compute_empty_not_cached_witness :
    get_or_compute 24 [] 0 "q" [] (.returns (.dataFrame ⟨[]⟩)) .success false =
      ⟨.ok ⟨[]⟩, [], 1⟩
    ∧ (get_or_compute 24
        (get_or_compute 24 [] 0 "q" [] (.returns (.dataFrame ⟨[]⟩)) .success false).store
        1 "q" [] (.returns (.dataFrame ⟨[]⟩)) .success false).computeCalls = 1 :=
  get_or_compute_empty_not_cached 24 0 1 [] "q" [] ⟨[]⟩ .success
    (.returns (.dataFrame ⟨[]⟩)) .success rfl rfl

/-- C8 counterexample: cache writes are not atomic. With a previous-file-free
store, a write that fails mid-serialization leaves a partially written
(unreadable) file for the key: the resulting store has an entry that neither
existed before nor holds a valid serialized table. -/
theorem write_not_atomic :
    ¬ writeAtomicOn []
      (get_or_compute 24 [] 0 "q" [] (.returns (.dataFrame ⟨[["x"]]⟩)) .failDirty false) := by
  intro h
  rcases h (cacheFilename "q" [], ⟨0, .garbage⟩) (by exact List.mem_singleton.mpr rfl)
    with hmem | hvalid
  · simp at hmem
  · simp [contentValid] at hvalid

/-- C8 (amended): a cache write either fully succeeds, leaving a valid file
for the key, or fails; the failure is logged and the freshly computed result
is still returned, but a failure during serialization may leave the file for
the key partially written (corrupted) rather than the previous file
untouched. -/
theorem write_best_effort (ttl now : ℚ) (store : Store) (q : String)
    (p : List (String × String)) (df : DataFrame) (wout : WriteOutcome)
    (hne : df.rows ≠ [])
    (hmiss : findFile store (cacheFilename q p) = none) :
    (get_or_compute ttl store now q p (.returns (.dataFrame df)) wout false).result = .ok df
    ∧ (wout = .success →
        get_or_compute ttl store now q p (.returns (.dataFrame df)) wout false =
          ⟨.ok df, setFile store (cacheFilename q p) ⟨now, .parquet df⟩, 1⟩)
    ∧ (wout = .failClean →
        get_or_compute ttl store now q p (.returns (.dataFrame df)) wout false =
          ⟨.ok df, store, 1⟩)
    ∧ (wout = .failDirty →
        get_or_compute ttl store now q p (.returns (.dataFrame df)) wout false =
          ⟨.ok df, setFile store (cacheFilename q p) ⟨now, .garbage⟩, 1⟩) := by
  have h := goc_of_miss ttl now store q p (.returns (.dataFrame df)) wout hmiss
  rw [h, computeAndCache_nonempty _ _ _ _ _ hne]
  cases wout with
  | success =>
      exact ⟨rfl, fun _ => rfl, fun hc => absurd hc (by decide),
        fun hc => absurd hc (by decide)⟩
  | failClean =>
      exact ⟨rfl, fun hc => absurd hc (by decide), fun _ => rfl,
        fun hc => absurd hc (by decide)⟩
  | failDirty =>
      exact ⟨rfl, fun hc => absurd hc (by decide), fun hc => absurd hc (by decide),
        fun _ => rfl⟩

theorem write_best_effort_witness :
    (get_or_compute 24 [] 0 "q" [] (.returns (.dataFrame ⟨[["x"]]⟩)) .failDirty
        false).result = .ok ⟨[["x"]]⟩
    ∧ (WriteOutcome.failDirty = .success →
        get_or_compute 24 [] 0 "q" [] (.returns (.dataFrame ⟨[["x"]]⟩)) .failDirty false =
          ⟨.ok ⟨[["x"]]⟩, setFile [] (cacheFilename "q" []) ⟨0, .parquet ⟨[["x"]]⟩⟩, 1⟩)
    ∧ (WriteOutcome.failDirty = .failClean →
        get_or_compute 24 [] 0 "q" [] (.returns (.dataFrame ⟨[["x"]]⟩)) .failDirty false =
          ⟨.ok ⟨[["x"]]⟩, [], 1⟩)
    ∧ (WriteOutcome.failDirty = .failDirty →
        get_or_compute 24 [] 0 "q" [] (.returns (.dataFrame ⟨[["x"]]⟩)) .failDirty false =
          ⟨.ok ⟨[["x"]]⟩, setFile [] (cacheFilename "q" []) ⟨0, .garbage⟩, 1⟩) :=
  write_best_effort 24 0 [] "q" [] ⟨[["x"]]⟩ .failDirty (by decide) rfl

/-- C3: cache-key derivation is deterministic in the parameter mapping —
for parameter lists holding the same (name, value) pairs in any order it
yields the same key — and the key is always a 16-character string of
hexadecimal characters. -/
theorem cache_key_deterministic (q : String) (p1 p2 : List (String × String))
    (hperm : p1.Perm p2) :
    generate_cache_key q p1 = generate_cache_key q p2
    ∧ (generate_cache_key q p1).length = 16
    ∧ (generate_cache_key q p1).data.all isHexChar = true :=
  ⟨generate_cache_key_perm q hperm, generate_cache_key_length q p1,
    generate_cache_key_hex q p1⟩

theorem cache_key_deterministic_witness :
    generate_cache_key "SELECT 1" [("b", "2"), ("a", "1")] =
      generate_cache_key "SELECT 1" [("a", "1"), ("b", "2")]
    ∧ (generate_cache_key "SELECT 1" [("b", "2"), ("a", "1")]).length = 16
    ∧ (generate_cache_key "SELECT 1" [("b", "2"), ("a", "1")]).data.all isHexChar = true :=
  cache_key_deterministic "SELECT 1" [("b", "2"), ("a", "1")] [("a", "1"), ("b", "2")]
    (by decide)

end QaaAnalysis
